import Mathlib

/-!
Shallow embedding of the core data model and business rules of the
patient/doctor healthcare-records application (`core/models.py`, here
`src/modelss.py`), together with theorems settling the behavioural
claims about it: the prescription-item end-date derivation performed in
`PrescriptionItem.save`, the doctor-patient connection lifecycle, and
the deletion semantics declared through the `on_delete` options of the
foreign keys (CASCADE and PROTECT).

Conventions of the embedding:
  * calendar dates are proleptic-Gregorian triples `(year, month, day)`;
    adding a `timedelta` of whole days is implemented by converting to a
    serial day number and back (the standard civil-calendar algorithms),
    which agrees with Python `datetime.date + timedelta(days=n)`;
  * nullable columns are `Option` fields; Python truthiness of an
    optional integer column (`None` and `0` are falsy) is made explicit
    in `optNatTruthy`;
  * timestamps are abstract `Nat` ticks — no claim depends on their
    structure;
  * the relational store is a record of lists of rows (`DB`); deletion
    follows the framework's collector semantics for the declared
    `on_delete` options.
-/

/-- A proleptic Gregorian calendar date, mirroring Python `datetime.date`. -/
structure Date where
  year : Int
  month : Nat
  day : Nat
deriving DecidableEq, Repr, Inhabited

/-- Serial day number of a civil date (days since 1970-01-01), the
standard `days_from_civil` algorithm. -/
def daysFromCivil (dt : Date) : Int :=
  let y : Int := if dt.month ≤ 2 then dt.year - 1 else dt.year
  let era : Int := Int.fdiv y 400
  let yoe : Int := y - era * 400
  let mp : Int := (dt.month : Int) + (if 2 < dt.month then -3 else 9)
  let doy : Int := (153 * mp + 2) / 5 + (dt.day : Int) - 1
  let doe : Int := yoe * 365 + yoe / 4 - yoe / 100 + doy
  era * 146097 + doe - 719468

/-- Civil date of a serial day number, the standard `civil_from_days`
algorithm (inverse of `daysFromCivil` on valid dates). -/
def civilFromDays (z0 : Int) : Date :=
  let z : Int := z0 + 719468
  let era : Int := Int.fdiv z 146097
  let doe : Int := z - era * 146097
  let yoe : Int := (doe - doe / 1460 + doe / 36524 - doe / 146096) / 365
  let y : Int := yoe + era * 400
  let doy : Int := doe - (365 * yoe + yoe / 4 - yoe / 100)
  let mp : Int := (5 * doy + 2) / 153
  let d : Int := doy - (153 * mp + 2) / 5 + 1
  let m : Int := mp + (if mp < 10 then 3 else -9)
  ⟨y + (if m ≤ 2 then 1 else 0), m.toNat, d.toNat⟩

/-- `dt + timedelta(days = n)` for a Python `datetime.date`. -/
def Date.addDays (dt : Date) (n : Int) : Date :=
  civilFromDays (daysFromCivil dt + n)

/-- `User.ROLE_CHOICES` of the custom user model. -/
inductive Role where
  | patient
  | doctor
  | admin
deriving DecidableEq, Repr, Inhabited

/-- `PrescriptionItem.DURATION_UNIT_CHOICES`. -/
inductive DurationUnit where
  | days
  | weeks
  | months
  | indefinite
deriving DecidableEq, Repr, Inhabited

/-- `DoctorPatientConnection.STATUS_CHOICES`. -/
inductive ConnectionStatus where
  | pending_approval_by_doctor
  | approved
  | rejected_by_doctor
  | terminated_by_patient
  | terminated_by_doctor
deriving DecidableEq, Repr, Inhabited

/-- `Notification.TYPE_CHOICES`. -/
inductive NotificationType where
  | medication_reminder
  | appointment_reminder
  | connection_request
  | new_diagnosis
  | new_prescription
  | general_update
deriving DecidableEq, Repr, Inhabited

/-- The error kinds of the specification's error-handling design. -/
inductive AppError where
  | ConflictError
  | InvalidTransitionError
  | ReferentialIntegrityError
  | ValidationError
deriving DecidableEq, Repr, Inhabited

/-- The custom `User` model (identity): rows carry a surrogate primary
key `id`; role-irrelevant scalar columns are kept as plain data. -/
structure User where
  id : Nat
  username : String
  email : String
  role : Role
  phone_number : Option String
deriving DecidableEq, Repr, Inhabited

/-- `PatientProfile`: one-to-one with `User`, `primary_key=True`, so the
row's primary key is the `user` id; `on_delete=CASCADE`. -/
structure PatientProfile where
  user : Nat
  date_of_birth : Option Date
  blood_group : Option String
  allergies : Option String
  medical_conditions : Option String
  emergency_contact_name : Option String
deriving DecidableEq, Repr, Inhabited

/-- `DoctorProfile`: one-to-one with `User`, `primary_key=True`;
`on_delete=CASCADE`. -/
structure DoctorProfile where
  user : Nat
  specialization : Option String
  medical_license_number : Option String
  clinic_hospital_name : Option String
  years_of_experience : Option Nat
  is_verified : Bool
deriving DecidableEq, Repr, Inhabited

/-- `DoctorPatientConnection`: `patient` and `doctor` are foreign keys
to the two profiles (whose primary keys are user ids), both
`on_delete=CASCADE`; `unique_together = (patient, doctor)`. -/
structure DoctorPatientConnection where
  id : Nat
  patient : Nat
  doctor : Nat
  status : ConnectionStatus
  request_date : Nat
  response_date : Option Nat
  last_interaction_date : Option Nat
deriving DecidableEq, Repr, Inhabited

/-- `Diagnosis`: belongs to one connection, `on_delete=CASCADE`. -/
structure Diagnosis where
  id : Nat
  connection : Nat
  date_recorded : Nat
  symptoms : Option String
  diagnosis_details : String
  treatment_plan : Option String
  follow_up_date : Option Date
deriving DecidableEq, Repr, Inhabited

/-- `Medication`: the master medication list; `name` is unique. -/
structure Medication where
  id : Nat
  name : String
  generic_name : Option String
  manufacturer : Option String
  category : Option String
  description : Option String
deriving DecidableEq, Repr, Inhabited

/-- `Prescription`: belongs to one diagnosis, `on_delete=CASCADE`. -/
structure Prescription where
  id : Nat
  diagnosis : Nat
  date_prescribed : Nat
  notes_for_patient : Option String
  is_active : Bool
deriving DecidableEq, Repr, Inhabited

/-- `PrescriptionItem`: belongs to one prescription
(`on_delete=CASCADE`) and references one medication
(`on_delete=PROTECT`).  `duration_value` is a nullable nonnegative
integer, `duration_unit` a nullable choice, `start_date` a date column
with a default (nullable at the Python level before save), `end_date`
nullable and auto-calculated on save when a duration is provided. -/
structure PrescriptionItem where
  id : Nat
  prescription : Nat
  medication : Nat
  dosage : String
  route : Option String
  frequency : String
  duration_value : Option Nat
  duration_unit : Option DurationUnit
  start_date : Option Date
  end_date : Option Date
  instructions : Option String
  refills_allowed : Nat
deriving DecidableEq, Repr, Inhabited

/-- `Notification`: owned by one user (`on_delete=CASCADE`) and
optionally referencing one prescription item, one diagnosis and one
connection, each `on_delete=CASCADE` and nullable. -/
structure Notification where
  id : Nat
  user : Nat
  message : String
  notification_time : Nat
  is_read : Bool
  created_at : Nat
  notification_type : NotificationType
  prescription_item : Option Nat
  diagnosis : Option Nat
  connection_request_ref : Option Nat
deriving DecidableEq, Repr, Inhabited

/-- Python truthiness of an optional nonnegative integer column:
`None` and `0` are both falsy, every positive value is truthy. -/
def optNatTruthy : Option Nat → Bool
  | none => false
  | some n => decide (n ≠ 0)

/-- `PrescriptionItem.save`: derives `end_date` from `start_date` and
the duration when the guard
`self.start_date and self.duration_value and self.duration_unit and not self.end_date`
holds (Python truthiness: a `duration_value` of `0` fails the guard),
using `timedelta(days=v)`, `timedelta(weeks=v)` (= 7·v days) or
`timedelta(days=v*30)` for months. -/
def PrescriptionItem.save (item : PrescriptionItem) : PrescriptionItem :=
  if item.start_date.isSome && optNatTruthy item.duration_value
      && item.duration_unit.isSome && !item.end_date.isSome then
    match item.start_date, item.duration_value, item.duration_unit with
    | some sd, some v, some DurationUnit.days =>
        { item with end_date := some (sd.addDays (v : Int)) }
    | some sd, some v, some DurationUnit.weeks =>
        { item with end_date := some (sd.addDays (7 * (v : Int))) }
    | some sd, some v, some DurationUnit.months =>
        { item with end_date := some (sd.addDays ((v : Int) * 30)) }
    | _, _, _ => item
  else item

example : Date.addDays ⟨2024, 1, 1⟩ 7 = ⟨2024, 1, 8⟩ := by decide

example : Date.addDays ⟨2024, 1, 1⟩ 0 = ⟨2024, 1, 1⟩ := by decide

/-- The doctor's decision on a pending connection request. -/
inductive Decision where
  | approve
  | reject
deriving DecidableEq, Repr, Inhabited

/-- Which party initiates the termination of an approved connection. -/
inductive Initiator where
  | patient
  | doctor
deriving DecidableEq, Repr, Inhabited

/-- Modelled from the spec: `create_connection_request(patient, doctor)`
is not implemented under `src/` — the source only declares the
`unique_together = (patient, doctor)` constraint on
`DoctorPatientConnection`.  Per the spec it fails with `ConflictError`
when a connection for the pair already exists, and otherwise inserts a
fresh connection in `pending_approval_by_doctor` with request
timestamp = now.  The store is the list of existing connection rows;
`newId` is the fresh surrogate key the store assigns. -/
def create_connection_request (conns : List DoctorPatientConnection)
    (newId patient doctor now : Nat) :
    Except AppError (List DoctorPatientConnection) :=
  if conns.any (fun c => c.patient == patient && c.doctor == doctor) then
    .error .ConflictError
  else
    .ok (conns ++ [⟨newId, patient, doctor,
      .pending_approval_by_doctor, now, none, none⟩])

/-- The status a doctor's decision moves a pending connection to. -/
def decisionStatus : Decision → ConnectionStatus
  | .approve => .approved
  | .reject => .rejected_by_doctor

/-- The status termination moves an approved connection to, depending on
the initiating party. -/
def initiatorStatus : Initiator → ConnectionStatus
  | .patient => .terminated_by_patient
  | .doctor => .terminated_by_doctor

/-- Modelled from the spec: `respond(connection, decision)` is not
implemented under `src/` — the source only declares `STATUS_CHOICES`.
Per the spec it is valid only when the current status is
`pending_approval_by_doctor`; it sets the status to `approved` or
`rejected_by_doctor` and stamps response timestamp = now, and fails with
`InvalidTransitionError` from any other status. -/
def respond (c : DoctorPatientConnection) (decision : Decision) (now : Nat) :
    Except AppError DoctorPatientConnection :=
  if c.status = .pending_approval_by_doctor then
    .ok { c with
      status := decisionStatus decision
      response_date := some now }
  else
    .error .InvalidTransitionError

/-- Modelled from the spec: `terminate(connection, initiator)` is not
implemented under `src/`.  Per the spec it is valid only when the
current status is `approved`; it sets the status to
`terminated_by_patient` or `terminated_by_doctor` depending on the
initiator, and fails with `InvalidTransitionError` otherwise. -/
def terminate (c : DoctorPatientConnection) (who : Initiator) :
    Except AppError DoctorPatientConnection :=
  if c.status = .approved then
    .ok { c with status := initiatorStatus who }
  else
    .error .InvalidTransitionError

/-- No two rows of the list connect the same (patient, doctor) pair —
the `unique_together = (patient, doctor)` constraint. -/
def uniquePairs (conns : List DoctorPatientConnection) : Prop :=
  conns.Pairwise (fun a b => ¬(a.patient = b.patient ∧ a.doctor = b.doctor))

/-- The relational store: one list of rows per model. -/
structure DB where
  users : List User
  patient_profiles : List PatientProfile
  doctor_profiles : List DoctorProfile
  connections : List DoctorPatientConnection
  diagnoses : List Diagnosis
  medications : List Medication
  prescriptions : List Prescription
  items : List PrescriptionItem
  notifications : List Notification
deriving DecidableEq, Repr, Inhabited

/-- Membership test on a list of ids. -/
def hasId (ids : List Nat) (x : Nat) : Bool :=
  ids.any (fun y => y == x)

/-- Primary keys of the patient profiles that die when user `uid` is
deleted (their one-to-one `user` key is `on_delete=CASCADE` and is the
profile's primary key). -/
def DB.deadPatientIds (db : DB) (uid : Nat) : List Nat :=
  (db.patient_profiles.filter (fun pp => pp.user == uid)).map (fun pp => pp.user)

/-- Primary keys of the doctor profiles that die when user `uid` is
deleted. -/
def DB.deadDoctorIds (db : DB) (uid : Nat) : List Nat :=
  (db.doctor_profiles.filter (fun dp => dp.user == uid)).map (fun dp => dp.user)

/-- Whether a connection row is collected by the cascade of deleting
user `uid`: its `patient` or `doctor` foreign key (both
`on_delete=CASCADE`) points at a dying profile. -/
def DB.connDeadB (db : DB) (uid : Nat) (c : DoctorPatientConnection) : Bool :=
  hasId (db.deadPatientIds uid) c.patient || hasId (db.deadDoctorIds uid) c.doctor

/-- Ids of the connections collected by the cascade of deleting `uid`. -/
def DB.deadConnIds (db : DB) (uid : Nat) : List Nat :=
  (db.connections.filter (db.connDeadB uid)).map (fun c => c.id)

/-- Whether a diagnosis is collected: its `connection` foreign key
(`on_delete=CASCADE`) points at a dying connection. -/
def DB.diagDeadB (db : DB) (uid : Nat) (d : Diagnosis) : Bool :=
  hasId (db.deadConnIds uid) d.connection

/-- Ids of the diagnoses collected by the cascade of deleting `uid`. -/
def DB.deadDiagIds (db : DB) (uid : Nat) : List Nat :=
  (db.diagnoses.filter (db.diagDeadB uid)).map (fun d => d.id)

/-- Whether a prescription is collected: its `diagnosis` foreign key
(`on_delete=CASCADE`) points at a dying diagnosis. -/
def DB.presDeadB (db : DB) (uid : Nat) (p : Prescription) : Bool :=
  hasId (db.deadDiagIds uid) p.diagnosis

/-- Ids of the prescriptions collected by the cascade of deleting `uid`. -/
def DB.deadPresIds (db : DB) (uid : Nat) : List Nat :=
  (db.prescriptions.filter (db.presDeadB uid)).map (fun p => p.id)

/-- Whether a prescription item is collected: its `prescription` foreign
key (`on_delete=CASCADE`) points at a dying prescription. -/
def DB.itemDeadB (db : DB) (uid : Nat) (i : PrescriptionItem) : Bool :=
  hasId (db.deadPresIds uid) i.prescription

/-- Ids of the prescription items collected by the cascade. -/
def DB.deadItemIds (db : DB) (uid : Nat) : List Nat :=
  (db.items.filter (db.itemDeadB uid)).map (fun i => i.id)

/-- Whether a notification is collected: its `user` foreign key
(`on_delete=CASCADE`) is the deleted user, or one of its three optional
back-references (`prescription_item`, `diagnosis`,
`connection_request_ref`, all `on_delete=CASCADE`) points at a dying
row. -/
def DB.notifDeadB (db : DB) (uid : Nat) (n : Notification) : Bool :=
  n.user == uid
    || (match n.connection_request_ref with
        | some cid => hasId (db.deadConnIds uid) cid
        | none => false)
    || (match n.diagnosis with
        | some did => hasId (db.deadDiagIds uid) did
        | none => false)
    || (match n.prescription_item with
        | some iid => hasId (db.deadItemIds uid) iid
        | none => false)

/-- Deleting a `User` row: the framework collector follows every
`on_delete=CASCADE` foreign key transitively — the user's profile rows,
the connections of those profiles, the diagnoses of those connections,
their prescriptions, their items, and every notification owned by the
user or referencing a collected connection, diagnosis or item.
Medications are never collected (items only reference them through an
`on_delete=PROTECT` key, which does not propagate a deletion of the
item's side). -/
def DB.delete_user (db : DB) (uid : Nat) : DB :=
  { users := db.users.filter (fun u => u.id != uid)
    patient_profiles := db.patient_profiles.filter (fun pp => pp.user != uid)
    doctor_profiles := db.doctor_profiles.filter (fun dp => dp.user != uid)
    connections := db.connections.filter (fun c => !db.connDeadB uid c)
    diagnoses := db.diagnoses.filter (fun d => !db.diagDeadB uid d)
    medications := db.medications
    prescriptions := db.prescriptions.filter (fun p => !db.presDeadB uid p)
    items := db.items.filter (fun i => !db.itemDeadB uid i)
    notifications := db.notifications.filter (fun n => !db.notifDeadB uid n) }

/-- Deleting a `Medication` row: the `medication` foreign key of
`PrescriptionItem` is `on_delete=PROTECT`, so the deletion is refused
with a referential-integrity failure while any item references the
medication; otherwise only the medication row is removed. -/
def DB.delete_medication (db : DB) (mid : Nat) : Except AppError DB :=
  if db.items.any (fun i => i.medication == mid) then
    .error .ReferentialIntegrityError
  else
    .ok { db with medications := db.medications.filter (fun m => m.id != mid) }

/-- Deleting a `PrescriptionItem` row: the only rows referencing an item
are notifications (`prescription_item`, `on_delete=CASCADE`). -/
def DB.delete_prescription_item (db : DB) (iid : Nat) : DB :=
  { db with
    items := db.items.filter (fun i => i.id != iid)
    notifications := db.notifications.filter (fun n =>
      !(n.prescription_item == some iid)) }

/-- Ids of the prescriptions dying with diagnosis `did`. -/
def DB.presIdsOfDiag (db : DB) (did : Nat) : List Nat :=
  (db.prescriptions.filter (fun p => p.diagnosis == did)).map (fun p => p.id)

/-- Ids of the items dying with diagnosis `did`. -/
def DB.itemIdsOfDiag (db : DB) (did : Nat) : List Nat :=
  (db.items.filter (fun i => hasId (db.presIdsOfDiag did) i.prescription)).map
    (fun i => i.id)

/-- Deleting a `Diagnosis` row cascades to its prescriptions, their
items, and every notification referencing the diagnosis or a dying
item. -/
def DB.delete_diagnosis (db : DB) (did : Nat) : DB :=
  { db with
    diagnoses := db.diagnoses.filter (fun d => d.id != did)
    prescriptions := db.prescriptions.filter (fun p => p.diagnosis != did)
    items := db.items.filter (fun i => !hasId (db.presIdsOfDiag did) i.prescription)
    notifications := db.notifications.filter (fun n =>
      !((n.diagnosis == some did)
        || (match n.prescription_item with
            | some x => hasId (db.itemIdsOfDiag did) x
            | none => false))) }

/-- Ids of the diagnoses dying with connection `cid`. -/
def DB.diagIdsOfConn (db : DB) (cid : Nat) : List Nat :=
  (db.diagnoses.filter (fun d => d.connection == cid)).map (fun d => d.id)

/-- Ids of the prescriptions dying with connection `cid`. -/
def DB.presIdsOfConn (db : DB) (cid : Nat) : List Nat :=
  (db.prescriptions.filter (fun p => hasId (db.diagIdsOfConn cid) p.diagnosis)).map
    (fun p => p.id)

/-- Ids of the items dying with connection `cid`. -/
def DB.itemIdsOfConn (db : DB) (cid : Nat) : List Nat :=
  (db.items.filter (fun i => hasId (db.presIdsOfConn cid) i.prescription)).map
    (fun i => i.id)

/-- Deleting a `DoctorPatientConnection` row cascades to its diagnoses,
their prescriptions, their items, and every notification referencing the
connection or any dying diagnosis or item. -/
def DB.delete_connection (db : DB) (cid : Nat) : DB :=
  { db with
    connections := db.connections.filter (fun c => c.id != cid)
    diagnoses := db.diagnoses.filter (fun d => d.connection != cid)
    prescriptions := db.prescriptions.filter (fun p =>
      !hasId (db.diagIdsOfConn cid) p.diagnosis)
    items := db.items.filter (fun i => !hasId (db.presIdsOfConn cid) i.prescription)
    notifications := db.notifications.filter (fun n =>
      !((n.connection_request_ref == some cid)
        || (match n.diagnosis with
            | some x => hasId (db.diagIdsOfConn cid) x
            | none => false)
        || (match n.prescription_item with
            | some x => hasId (db.itemIdsOfConn cid) x
            | none => false))) }

/-- A connection is owned by identity `uid`: its patient or doctor
profile belongs to `uid` (relational statement of the cascade's first
hop). -/
def connDead (db : DB) (uid : Nat) (c : DoctorPatientConnection) : Prop :=
  (∃ pp ∈ db.patient_profiles, pp.user = uid ∧ pp.user = c.patient) ∨
  (∃ dp ∈ db.doctor_profiles, dp.user = uid ∧ dp.user = c.doctor)

/-- A diagnosis is reachable from identity `uid`: it belongs to a
connection owned by `uid`. -/
def diagDead (db : DB) (uid : Nat) (d : Diagnosis) : Prop :=
  ∃ c ∈ db.connections, connDead db uid c ∧ c.id = d.connection

/-- A prescription is reachable from identity `uid`: it belongs to a
reachable diagnosis. -/
def presDead (db : DB) (uid : Nat) (p : Prescription) : Prop :=
  ∃ d ∈ db.diagnoses, diagDead db uid d ∧ d.id = p.diagnosis

/-- A prescription item is reachable from identity `uid`: it belongs to
a reachable prescription. -/
def itemDead (db : DB) (uid : Nat) (i : PrescriptionItem) : Prop :=
  ∃ p ∈ db.prescriptions, presDead db uid p ∧ p.id = i.prescription

/-- A notification is reachable from identity `uid`: it is owned by
`uid`, or it references a connection owned by `uid`, or a reachable
diagnosis, or a reachable prescription item. -/
def notifDead (db : DB) (uid : Nat) (n : Notification) : Prop :=
  n.user = uid ∨
  (∃ c ∈ db.connections, connDead db uid c ∧ some c.id = n.connection_request_ref) ∨
  (∃ d ∈ db.diagnoses, diagDead db uid d ∧ some d.id = n.diagnosis) ∨
  (∃ i ∈ db.items, itemDead db uid i ∧ some i.id = n.prescription_item)

/-- A prescription item with typical scalar columns; starts 2024-01-01
with no duration and no end date. -/
def itemBase : PrescriptionItem :=
  { id := 1
    prescription := 1
    medication := 1
    dosage := "1 tablet"
    route := some "Oral"
    frequency := "Twice a day"
    duration_value := none
    duration_unit := none
    start_date := some ⟨2024, 1, 1⟩
    end_date := none
    instructions := none
    refills_allowed := 0 }

/-- A zero-length course: duration value 0, unit days, end date unset. -/
def itemZero : PrescriptionItem :=
  { itemBase with duration_value := some 0, duration_unit := some .days }

/-- A seven-day course starting 2024-01-01 with no explicit end date. -/
def itemWeekCourse : PrescriptionItem :=
  { itemBase with duration_value := some 7, duration_unit := some .days }

/-- An item whose end date is already set explicitly. -/
def itemEndSet : PrescriptionItem :=
  { itemBase with
    duration_value := some 7
    duration_unit := some .days
    end_date := some ⟨2024, 2, 1⟩ }

/-- An indefinite prescription with a (large) duration value. -/
def itemIndefinite : PrescriptionItem :=
  { itemBase with duration_value := some 5, duration_unit := some .indefinite }

/-- A pending connection request between patient profile 10 and doctor
profile 20. -/
def connPending : DoctorPatientConnection :=
  ⟨1, 10, 20, .pending_approval_by_doctor, 0, none, none⟩

/-- `connPending` after the doctor approved it at tick 5. -/
def connApproved5 : DoctorPatientConnection :=
  ⟨1, 10, 20, .approved, 0, some 5, none⟩

/-- A patient identity. -/
def alice : User := ⟨1, "alice", "alice@example.com", .patient, none⟩

/-- A doctor identity. -/
def bob : User := ⟨2, "bob", "bob@example.com", .doctor, none⟩

/-- Alice's patient profile (primary key = her user id). -/
def aliceProfile : PatientProfile := ⟨1, none, none, none, none, none⟩

/-- Bob's doctor profile (primary key = his user id). -/
def bobProfile : DoctorProfile := ⟨2, none, none, none, none, false⟩

/-- An approved connection between Alice and Bob. -/
def connAliceBob : DoctorPatientConnection := ⟨1, 1, 2, .approved, 0, some 1, none⟩

/-- A diagnosis recorded on the Alice–Bob connection. -/
def diagFlu : Diagnosis := ⟨1, 1, 2, none, "influenza", none, none⟩

/-- A medication referenced by a prescription item. -/
def medAmoxicillin : Medication := ⟨1, "Amoxicillin", none, none, none, none⟩

/-- A medication referenced by no prescription item. -/
def medIbuprofen : Medication := ⟨2, "Ibuprofen", none, none, none, none⟩

/-- A prescription under the flu diagnosis. -/
def presFlu : Prescription := ⟨1, 1, 3, none, true⟩

/-- A prescription item under `presFlu` referencing `medAmoxicillin`. -/
def itemFlu : PrescriptionItem :=
  { itemBase with id := 1, prescription := 1, medication := 1 }

/-- A notification for Alice referencing prescription item 1. -/
def notifItemRef : Notification :=
  ⟨1, 1, "New prescription added", 0, false, 0, .new_prescription, some 1, none, none⟩

/-- A notification for Bob referencing nothing. -/
def notifPlain : Notification :=
  ⟨2, 2, "Welcome", 0, false, 0, .general_update, none, none, none⟩

/-- A small concrete store holding both identities, their profiles, the
Alice–Bob connection and its clinical chain, two medications and two
notifications. -/
def db0 : DB :=
  { users := [alice, bob]
    patient_profiles := [aliceProfile]
    doctor_profiles := [bobProfile]
    connections := [connAliceBob]
    diagnoses := [diagFlu]
    medications := [medAmoxicillin, medIbuprofen]
    prescriptions := [presFlu]
    items := [itemFlu]
    notifications := [notifItemRef, notifPlain] }

/-- A save never changes an end date that is already set. -/
theorem save_preserves_set_end (item : PrescriptionItem) (d : Date)
    (h : item.end_date = some d) : (item.save).end_date = some d := by
  simp [PrescriptionItem.save, h]

/-- A save either leaves the item unchanged or sets the end date. -/
theorem save_eq_or_sets (item : PrescriptionItem) :
    item.save = item ∨ ∃ d, (item.save).end_date = some d := by
  unfold PrescriptionItem.save
  split
  · split <;> first
      | exact Or.inr ⟨_, rfl⟩
      | exact Or.inl rfl
  · exact Or.inl rfl

/-- Claim C1, as stated, is false of the code: on a prescription item
with duration value 0, duration unit days, start date 2024-01-01 and no
explicit end date, saving leaves the end date unset (Python truthiness
makes a zero `duration_value` fail the derivation guard), so the derived
end date is not the start date. -/
theorem c1_zero_duration_counterexample :
    itemZero.duration_value = some 0 ∧
    itemZero.duration_unit = some DurationUnit.days ∧
    itemZero.start_date = some ⟨2024, 1, 1⟩ ∧
    itemZero.end_date = none ∧
    (itemZero.save).end_date = none ∧
    (itemZero.save).end_date ≠ some ⟨2024, 1, 1⟩ := by
  decide

/-- Claim C1 (amended): for every prescription item with duration value
0, duration unit days, a set start date and no explicit end date, saving
leaves the end date unset — the guard treats a zero duration value as
absent — and the save is not rejected (it is a total operation returning
the item). -/
theorem c1_zero_duration_amended (item : PrescriptionItem) (sd : Date)
    (h0 : item.duration_value = some 0)
    (h1 : item.duration_unit = some DurationUnit.days)
    (h2 : item.start_date = some sd)
    (h3 : item.end_date = none) :
    (item.save).end_date = none := by
  simp [PrescriptionItem.save, optNatTruthy, h0, h1, h2, h3]

/-- Claim C1 witness: the amended statement evaluated on the concrete
zero-duration item. -/
theorem c1_zero_duration_witness : (itemZero.save).end_date = none :=
  c1_zero_duration_amended itemZero ⟨2024, 1, 1⟩ rfl rfl rfl rfl

/-- Claim C2: with a set start date, a positive duration value, a
duration unit other than indefinite and no explicit end date, saving
derives end date = start date + duration (v days, v weeks = 7·v days, or
v·30 days for months). -/
theorem c2_end_date_derivation (item : PrescriptionItem) (sd : Date)
    (v : Nat) (u : DurationUnit)
    (hs : item.start_date = some sd)
    (hv : item.duration_value = some v)
    (hpos : 0 < v)
    (hu : item.duration_unit = some u)
    (hind : u ≠ DurationUnit.indefinite)
    (he : item.end_date = none) :
    (u = DurationUnit.days →
      (item.save).end_date = some (sd.addDays (v : Int))) ∧
    (u = DurationUnit.weeks →
      (item.save).end_date = some (sd.addDays (7 * (v : Int)))) ∧
    (u = DurationUnit.months →
      (item.save).end_date = some (sd.addDays ((v : Int) * 30))) := by
  have hv0 : v ≠ 0 := Nat.pos_iff_ne_zero.mp hpos
  cases u <;> simp_all [PrescriptionItem.save, optNatTruthy]

/-- Claim C2 witness: start date 2024-01-01 with duration 7 days and no
explicit end date yields end date 2024-01-08. -/
theorem c2_end_date_derivation_witness :
    (itemWeekCourse.save).end_date = some ⟨2024, 1, 8⟩ :=
  ((c2_end_date_derivation itemWeekCourse ⟨2024, 1, 1⟩ 7 DurationUnit.days
      rfl rfl (by decide) rfl (by decide) rfl).1 rfl).trans (by decide)

/-- Claim C3: a set end date (explicit or previously derived) is never
recomputed or overwritten by a save, and save is idempotent with respect
to the end date. -/
theorem c3_end_date_idempotent (item : PrescriptionItem) :
    (∀ d : Date, item.end_date = some d → (item.save).end_date = some d) ∧
    (item.save).save.end_date = (item.save).end_date := by
  constructor
  · intro d h
    exact save_preserves_set_end item d h
  · rcases save_eq_or_sets item with h | ⟨d, hd⟩
    · rw [h, h]
    · rw [hd]
      exact save_preserves_set_end _ d hd

/-- Claim C3 witness: the explicitly set end date 2024-02-01 survives a
save even though a seven-day duration is present, and a second save of
the derived seven-day course changes nothing. -/
theorem c3_end_date_idempotent_witness :
    (itemEndSet.save).end_date = some ⟨2024, 2, 1⟩ ∧
    (itemWeekCourse.save).save.end_date = (itemWeekCourse.save).end_date :=
  ⟨(c3_end_date_idempotent itemEndSet).1 ⟨2024, 2, 1⟩ rfl,
   (c3_end_date_idempotent itemWeekCourse).2⟩

/-- Claim C4: with duration unit indefinite, or duration value or unit
absent, saving leaves the end date unset regardless of the duration
value supplied. -/
theorem c4_open_ended (item : PrescriptionItem)
    (he : item.end_date = none)
    (hcase : item.duration_unit = some DurationUnit.indefinite ∨
      item.duration_value = none ∨ item.duration_unit = none) :
    (item.save).end_date = none := by
  rcases hcase with hu | hv | hu
  · cases hs : item.start_date <;> cases hv : item.duration_value <;>
      simp [PrescriptionItem.save, optNatTruthy, hs, hv, hu, he]
  · simp [PrescriptionItem.save, optNatTruthy, hv, he]
  · simp [PrescriptionItem.save, hu, he]

/-- Claim C4 witness: the indefinite item with duration value 5 keeps an
unset end date. -/
theorem c4_open_ended_witness : (itemIndefinite.save).end_date = none :=
  c4_open_ended itemIndefinite rfl (Or.inl rfl)

/-- Claim C5: a connection request for a (patient, doctor) pair that
already has a connection fails with `ConflictError`; otherwise exactly
one new pending connection with request timestamp = now is inserted, and
the at-most-one-connection-per-pair invariant is preserved. -/
theorem c5_unique_connection_request (conns : List DoctorPatientConnection)
    (newId p d now : Nat) :
    ((∃ c ∈ conns, c.patient = p ∧ c.doctor = d) →
      create_connection_request conns newId p d now = .error .ConflictError) ∧
    ((∀ c ∈ conns, ¬(c.patient = p ∧ c.doctor = d)) →
      create_connection_request conns newId p d now =
        .ok (conns ++
          [⟨newId, p, d, .pending_approval_by_doctor, now, none, none⟩])) ∧
    (∀ conns', uniquePairs conns →
      create_connection_request conns newId p d now = .ok conns' →
      uniquePairs conns') := by
  refine ⟨?_, ?_, ?_⟩
  · rintro ⟨c, hc, h1, h2⟩
    have hg : (conns.any fun c => c.patient == p && c.doctor == d) = true := by
      simp only [List.any_eq_true, Bool.and_eq_true, beq_iff_eq]
      exact ⟨c, hc, h1, h2⟩
    simp [create_connection_request, hg]
  · intro h
    have hg : ¬((conns.any fun c => c.patient == p && c.doctor == d) = true) := by
      simp only [List.any_eq_true, Bool.and_eq_true, beq_iff_eq]
      rintro ⟨c, hc, h1, h2⟩
      exact h c hc ⟨h1, h2⟩
    simp [create_connection_request, hg]
  · intro conns' hUP hok
    unfold create_connection_request at hok
    by_cases hg : (conns.any fun c => c.patient == p && c.doctor == d) = true
    · rw [if_pos hg] at hok
      cases hok
    · rw [if_neg hg] at hok
      cases hok
      simp only [List.any_eq_true, Bool.and_eq_true, beq_iff_eq] at hg
      push_neg at hg
      unfold uniquePairs
      rw [List.pairwise_append]
      refine ⟨hUP, by simp, ?_⟩
      intro a ha b hb
      simp only [List.mem_singleton] at hb
      subst hb
      rintro ⟨h1, h2⟩
      exact absurd h2 (hg a ha h1)

/-- Claim C5 witness: a second request for the Alice–Bob pair conflicts;
a request for a fresh pair inserts the pending row. -/
theorem c5_unique_connection_request_witness :
    create_connection_request [connAliceBob] 2 1 2 7 = .error .ConflictError ∧
    create_connection_request [connAliceBob] 2 3 2 7 =
      .ok ([connAliceBob] ++
        [⟨2, 3, 2, .pending_approval_by_doctor, 7, none, none⟩]) :=
  ⟨(c5_unique_connection_request [connAliceBob] 2 1 2 7).1
      ⟨connAliceBob, by decide, rfl, rfl⟩,
   (c5_unique_connection_request [connAliceBob] 2 3 2 7).2.1 (by decide)⟩

/-- Claim C6: respond succeeds exactly from
`pending_approval_by_doctor`, moving the status to `approved` or
`rejected_by_doctor` according to the decision, stamping
response timestamp = now, and a second respond on the result always
fails with `InvalidTransitionError`. -/
theorem c6_respond_transitions (c : DoctorPatientConnection)
    (dec : Decision) (now : Nat) :
    (c.status ≠ .pending_approval_by_doctor →
      respond c dec now = .error .InvalidTransitionError) ∧
    (c.status = .pending_approval_by_doctor →
      respond c dec now =
        .ok { c with status := decisionStatus dec, response_date := some now } ∧
      (decisionStatus dec = .approved ∨
        decisionStatus dec = .rejected_by_doctor) ∧
      (dec = .approve → decisionStatus dec = .approved) ∧
      (dec = .reject → decisionStatus dec = .rejected_by_doctor) ∧
      ∀ dec2 now2,
        respond { c with status := decisionStatus dec, response_date := some now }
          dec2 now2 = .error .InvalidTransitionError) := by
  constructor
  · intro h
    simp [respond, h]
  · intro h
    refine ⟨by simp [respond, h], ?_, ?_, ?_, ?_⟩
    · cases dec <;> simp [decisionStatus]
    · intro hd; subst hd; rfl
    · intro hd; subst hd; rfl
    · intro dec2 now2
      cases dec <;> simp [respond, decisionStatus]

/-- Claim C6 witness: approving the pending connection succeeds and
stamps the response; responding again fails. -/
theorem c6_respond_transitions_witness :
    respond connPending .approve 5 = .ok connApproved5 ∧
    respond connApproved5 .reject 6 = .error .InvalidTransitionError :=
  ⟨((c6_respond_transitions connPending .approve 5).2 rfl).1,
   ((c6_respond_transitions connPending .approve 5).2 rfl).2.2.2.2 .reject 6⟩

/-- Claim C7, as stated, is false of the lifecycle: a connection that
has left `pending_approval_by_doctor` (here `connApproved5`, produced by
a successful respond) still admits a successful transition — terminate
succeeds from `approved` — contradicting the clause that once a
connection leaves the pending state no further transition ever
succeeds. -/
theorem c7_terminal_states_counterexample :
    respond connPending .approve 5 = .ok connApproved5 ∧
    connApproved5.status ≠ .pending_approval_by_doctor ∧
    terminate connApproved5 .patient =
      .ok { connApproved5 with status := .terminated_by_patient } :=
  ⟨rfl, by decide, rfl⟩

/-- Claim C7 (amended): terminate succeeds only from `approved`, setting
the status to `terminated_by_patient` or `terminated_by_doctor`
according to the initiator, and fails with `InvalidTransitionError`
otherwise; the rejected and terminated states are terminal — no respond
or terminate ever succeeds from them — so terminate succeeds at most
once per connection. -/
theorem c7_terminate_once_amended (c : DoctorPatientConnection)
    (who : Initiator) :
    (c.status = .approved →
      terminate c who = .ok { c with status := initiatorStatus who } ∧
      (who = .patient → initiatorStatus who = .terminated_by_patient) ∧
      (who = .doctor → initiatorStatus who = .terminated_by_doctor) ∧
      (∀ who2, terminate { c with status := initiatorStatus who } who2 =
        .error .InvalidTransitionError) ∧
      (∀ dec now, respond { c with status := initiatorStatus who } dec now =
        .error .InvalidTransitionError)) ∧
    (c.status ≠ .approved →
      terminate c who = .error .InvalidTransitionError) ∧
    ((c.status = .rejected_by_doctor ∨ c.status = .terminated_by_patient ∨
        c.status = .terminated_by_doctor) →
      (∀ who2, terminate c who2 = .error .InvalidTransitionError) ∧
      (∀ dec now, respond c dec now = .error .InvalidTransitionError)) := by
  refine ⟨?_, ?_, ?_⟩
  · intro h
    refine ⟨by simp [terminate, h], ?_, ?_, ?_, ?_⟩
    · intro hw; subst hw; rfl
    · intro hw; subst hw; rfl
    · intro who2
      cases who <;> simp [terminate, initiatorStatus]
    · intro dec now
      cases who <;> simp [respond, initiatorStatus]
  · intro h
    simp [terminate, h]
  · rintro (h | h | h) <;>
      exact ⟨fun who2 => by simp [terminate, h],
        fun dec now => by simp [respond, h]⟩

/-- Claim C7 witness: terminating the approved Alice–Bob-style
connection succeeds once; terminating the result fails. -/
theorem c7_terminate_once_witness :
    terminate connApproved5 .patient =
      .ok { connApproved5 with status := .terminated_by_patient } ∧
    terminate { connApproved5 with status := .terminated_by_patient } .doctor =
      .error .InvalidTransitionError :=
  ⟨((c7_terminate_once_amended connApproved5 .patient).1 rfl).1,
   ((c7_terminate_once_amended connApproved5 .patient).1 rfl).2.2.2.1 .doctor⟩

/-- Claim C8: deleting a medication fails with
`ReferentialIntegrityError` exactly when some prescription item
references it; a successful deletion removes only the medication row and
changes no other table. -/
theorem c8_medication_protected (db : DB) (mid : Nat) :
    ((∃ i ∈ db.items, i.medication = mid) ↔
      db.delete_medication mid = .error .ReferentialIntegrityError) ∧
    (∀ db', db.delete_medication mid = .ok db' →
      db'.medications = db.medications.filter (fun m => m.id != mid) ∧
      db'.users = db.users ∧
      db'.patient_profiles = db.patient_profiles ∧
      db'.doctor_profiles = db.doctor_profiles ∧
      db'.connections = db.connections ∧
      db'.diagnoses = db.diagnoses ∧
      db'.prescriptions = db.prescriptions ∧
      db'.items = db.items ∧
      db'.notifications = db.notifications) ∧
    ((∀ i ∈ db.items, i.medication ≠ mid) →
      db.delete_medication mid =
        .ok { db with
          medications := db.medications.filter (fun m => m.id != mid) }) := by
  refine ⟨⟨?_, ?_⟩, ?_, ?_⟩
  · rintro ⟨i, hi, h⟩
    have hg : (db.items.any fun i => i.medication == mid) = true := by
      simp only [List.any_eq_true, beq_iff_eq]
      exact ⟨i, hi, h⟩
    simp [DB.delete_medication, hg]
  · intro h
    by_cases hg : (db.items.any fun i => i.medication == mid) = true
    · simpa only [List.any_eq_true, beq_iff_eq] using hg
    · exfalso
      rw [DB.delete_medication, if_neg hg] at h
      cases h
  · intro db' h
    unfold DB.delete_medication at h
    by_cases hg : (db.items.any fun i => i.medication == mid) = true
    · rw [if_pos hg] at h
      cases h
    · rw [if_neg hg] at h
      cases h
      exact ⟨rfl, rfl, rfl, rfl, rfl, rfl, rfl, rfl, rfl⟩
  · intro h
    have hg : ¬((db.items.any fun i => i.medication == mid) = true) := by
      simp only [List.any_eq_true, beq_iff_eq]
      rintro ⟨i, hi, hh⟩
      exact h i hi hh
    simp [DB.delete_medication, hg]

/-- Claim C8 witness: deleting the referenced medication fails, deleting
the unreferenced one succeeds and removes only its row. -/
theorem c8_medication_protected_witness :
    db0.delete_medication 1 = .error .ReferentialIntegrityError ∧
    db0.delete_medication 2 =
      .ok { db0 with
        medications := db0.medications.filter (fun m => m.id != 2) } :=
  ⟨(c8_medication_protected db0 1).1.mp ⟨itemFlu, by simp [db0], rfl⟩,
   (c8_medication_protected db0 2).2.2 (by decide)⟩

/-- An id list contains `x` exactly when `x` is a member. -/
theorem hasId_iff (ids : List Nat) (x : Nat) : hasId ids x = true ↔ x ∈ ids := by
  simp [hasId, List.any_eq_true, beq_iff_eq]

/-- The collector's boolean test for connections agrees with the
relational reachability predicate. -/
theorem connDeadB_iff (db : DB) (uid : Nat) (c : DoctorPatientConnection) :
    db.connDeadB uid c = true ↔ connDead db uid c := by
  simp [DB.connDeadB, hasId_iff, DB.deadPatientIds, DB.deadDoctorIds, connDead,
    List.mem_map, List.mem_filter, beq_iff_eq, Bool.or_eq_true, and_assoc]

/-- The collector's boolean test for diagnoses agrees with the
relational reachability predicate. -/
theorem diagDeadB_iff (db : DB) (uid : Nat) (d : Diagnosis) :
    db.diagDeadB uid d = true ↔ diagDead db uid d := by
  simp [DB.diagDeadB, hasId_iff, DB.deadConnIds, diagDead,
    List.mem_map, List.mem_filter, connDeadB_iff, and_assoc]

/-- The collector's boolean test for prescriptions agrees with the
relational reachability predicate. -/
theorem presDeadB_iff (db : DB) (uid : Nat) (p : Prescription) :
    db.presDeadB uid p = true ↔ presDead db uid p := by
  simp [DB.presDeadB, hasId_iff, DB.deadDiagIds, presDead,
    List.mem_map, List.mem_filter, diagDeadB_iff, and_assoc]

/-- The collector's boolean test for prescription items agrees with the
relational reachability predicate. -/
theorem itemDeadB_iff (db : DB) (uid : Nat) (i : PrescriptionItem) :
    db.itemDeadB uid i = true ↔ itemDead db uid i := by
  simp [DB.itemDeadB, hasId_iff, DB.deadPresIds, itemDead,
    List.mem_map, List.mem_filter, presDeadB_iff, and_assoc]

/-- The collector's boolean test for notifications agrees with the
relational reachability predicate. -/
theorem notifDeadB_iff (db : DB) (uid : Nat) (n : Notification) :
    db.notifDeadB uid n = true ↔ notifDead db uid n := by
  unfold DB.notifDeadB notifDead
  cases hc : n.connection_request_ref <;> cases hd : n.diagnosis <;>
    cases hi : n.prescription_item <;>
    simp [hc, hd, hi, hasId_iff, DB.deadConnIds, DB.deadDiagIds, DB.deadItemIds,
      List.mem_map, List.mem_filter, beq_iff_eq, connDeadB_iff, diagDeadB_iff,
      itemDeadB_iff, and_assoc, or_assoc, Bool.or_eq_true]

/-- Claim C9: deleting an identity removes exactly the rows reachable
from it — its profile rows, the connections owned by those profiles, the
diagnoses, prescriptions and prescription items reachable from those
connections, and the notifications owned by the identity or referencing
a removed connection, diagnosis or item; every other row, medications
included, is preserved. -/
theorem c9_identity_cascade (db : DB) (uid : Nat) :
    (∀ u : User, u ∈ (db.delete_user uid).users ↔
      u ∈ db.users ∧ u.id ≠ uid) ∧
    (∀ pp : PatientProfile, pp ∈ (db.delete_user uid).patient_profiles ↔
      pp ∈ db.patient_profiles ∧ pp.user ≠ uid) ∧
    (∀ dp : DoctorProfile, dp ∈ (db.delete_user uid).doctor_profiles ↔
      dp ∈ db.doctor_profiles ∧ dp.user ≠ uid) ∧
    (∀ c : DoctorPatientConnection, c ∈ (db.delete_user uid).connections ↔
      c ∈ db.connections ∧ ¬ connDead db uid c) ∧
    (∀ d : Diagnosis, d ∈ (db.delete_user uid).diagnoses ↔
      d ∈ db.diagnoses ∧ ¬ diagDead db uid d) ∧
    (∀ p : Prescription, p ∈ (db.delete_user uid).prescriptions ↔
      p ∈ db.prescriptions ∧ ¬ presDead db uid p) ∧
    (∀ i : PrescriptionItem, i ∈ (db.delete_user uid).items ↔
      i ∈ db.items ∧ ¬ itemDead db uid i) ∧
    ((db.delete_user uid).medications = db.medications) ∧
    (∀ n : Notification, n ∈ (db.delete_user uid).notifications ↔
      n ∈ db.notifications ∧ ¬ notifDead db uid n) := by
  refine ⟨?_, ?_, ?_, ?_, ?_, ?_, ?_, rfl, ?_⟩
  · intro u
    simp [DB.delete_user, List.mem_filter]
  · intro pp
    simp [DB.delete_user, List.mem_filter]
  · intro dp
    simp [DB.delete_user, List.mem_filter]
  · intro c
    simp [DB.delete_user, List.mem_filter, Bool.eq_false_iff, connDeadB_iff]
  · intro d
    simp [DB.delete_user, List.mem_filter, Bool.eq_false_iff, diagDeadB_iff]
  · intro p
    simp [DB.delete_user, List.mem_filter, Bool.eq_false_iff, presDeadB_iff]
  · intro i
    simp [DB.delete_user, List.mem_filter, Bool.eq_false_iff, itemDeadB_iff]
  · intro n
    simp [DB.delete_user, List.mem_filter, Bool.eq_false_iff, notifDeadB_iff]

/-- Claim C9 witness: deleting Alice removes her identity row and the
flu diagnosis reachable through her connection, while Bob's identity row
survives. -/
theorem c9_identity_cascade_witness :
    bob ∈ (db0.delete_user 1).users ∧
    alice ∉ (db0.delete_user 1).users ∧
    diagFlu ∉ (db0.delete_user 1).diagnoses :=
  ⟨((c9_identity_cascade db0 1).1 bob).mpr ⟨by simp [db0], by decide⟩,
   fun h => (((c9_identity_cascade db0 1).1 alice).mp h).2 rfl,
   fun h => (((c9_identity_cascade db0 1).2.2.2.2.1 diagFlu).mp h).2
     ⟨connAliceBob, by simp [db0],
      Or.inl ⟨aliceProfile, by simp [db0], rfl, rfl⟩, rfl⟩⟩

/-- Claim C10: a notification referencing a prescription item, a
diagnosis or a connection is deleted together with the referenced
entity, while the identity owning the notification survives those
deletions — the notification's lifetime is bounded by every entity it
references, not only by its owner. -/
theorem c10_notification_lifetime (db : DB) (n : Notification) (u : User) :
    (∀ iid, n ∈ db.notifications → n.prescription_item = some iid →
      n ∉ (db.delete_prescription_item iid).notifications) ∧
    (∀ did, n ∈ db.notifications → n.diagnosis = some did →
      n ∉ (db.delete_diagnosis did).notifications) ∧
    (∀ cid, n ∈ db.notifications → n.connection_request_ref = some cid →
      n ∉ (db.delete_connection cid).notifications) ∧
    (∀ eid, u ∈ db.users →
      u ∈ (db.delete_prescription_item eid).users ∧
      u ∈ (db.delete_diagnosis eid).users ∧
      u ∈ (db.delete_connection eid).users) := by
  refine ⟨?_, ?_, ?_, ?_⟩
  · intro iid hmem href
    simp [DB.delete_prescription_item, List.mem_filter, href]
  · intro did hmem href
    simp [DB.delete_diagnosis, List.mem_filter, href]
  · intro cid hmem href
    simp [DB.delete_connection, List.mem_filter, href]
  · intro eid hmem
    exact ⟨hmem, hmem, hmem⟩

/-- Claim C10 witness: deleting prescription item 1 removes Alice's
notification that references it while Alice's identity row survives. -/
theorem c10_notification_lifetime_witness :
    notifItemRef ∉ (db0.delete_prescription_item 1).notifications ∧
    alice ∈ (db0.delete_prescription_item 1).users :=
  ⟨(c10_notification_lifetime db0 notifItemRef alice).1 1 (by simp [db0]) rfl,
   ((c10_notification_lifetime db0 notifItemRef alice).2.2.2 1
     (by simp [db0])).1⟩
